import Mathlib

/-!
# Shallow embedding of the Git Smart-HTTP gateway (src/backend/src/main.rs, src/backend/src/api/user.rs)

Byte strings are `List Nat` (each element a byte value).  External collaborators
(the base64 decoder, the UTF-8 decoder of the `base64`/`std` crates, the identity
store, the filesystem, and the spawned `git` helper process) are parameters of the
embedded handlers; everything the repository's own code does — header parsing,
service extraction, PKT-LINE framing, path joining, response construction and the
order of subprocess interactions — is translated directly from the Rust source.
Handler side effects (process spawns, stdin writes/closes, waits, error logging)
are reified as an `Effect` trace; a `.expect(..)` panic in the Rust source is the
`Outcome.panic` constructor.
-/

namespace GitGateway

abbrev Bytes := List Nat

/-- UTF-8 encoding of one character (what Rust's `str::as_bytes`/`String::len`
see for each `char`). -/
def charUtf8 (c : Char) : Bytes :=
  let n := c.toNat
  if n < 0x80 then [n]
  else if n < 0x800 then [0xC0 + n / 64, 0x80 + n % 64]
  else if n < 0x10000 then [0xE0 + n / 4096, 0x80 + n / 64 % 64, 0x80 + n % 64]
  else [0xF0 + n / 262144, 0x80 + n / 4096 % 64, 0x80 + n / 64 % 64, 0x80 + n % 64]

/-- The bytes of a string, as Rust's `str::as_bytes` yields them. -/
def strBytes (s : String) : Bytes := s.data.flatMap charUtf8

/-- Rust's `str::len` — the UTF-8 byte length. -/
def rustLen (s : String) : Nat := (strBytes s).length

/-- The sixteen lowercase hexadecimal digit characters. -/
def hexDigits : List Char := "0123456789abcdef".data

def hexDigitChar (n : Nat) : Char := hexDigits.getD n '0'

def hexDigitVal (c : Char) : Nat :=
  if c.toNat ≥ 97 then c.toNat - 87 else c.toNat - 48

/-- Value of a big-endian hex digit string. -/
def hexVal (l : List Char) : Nat := l.foldl (fun a c => 16 * a + hexDigitVal c) 0

/-- Lowercase hex digits of `n`, most significant first, no leading zeros
(one digit for `n = 0`).  The first argument is structural fuel: one unit per
emitted digit. -/
def toHexCore : Nat → Nat → List Char
  | 0, _ => []
  | fuel+1, n => if n < 16 then [hexDigitChar n] else toHexCore fuel (n / 16) ++ [hexDigitChar (n % 16)]

/-- Rust's `format!("{:04x}", n)`: lowercase hex, zero-padded on the left to a
minimum width of 4, never truncated.  The formatted value in the source is a
`usize`, i.e. below `2^64 = 16^16`, so 17 units of fuel always suffice. -/
def format04x (n : Nat) : String :=
  let ds := toHexCore 17 n
  String.mk (List.replicate (4 - ds.length) '0' ++ ds)

/-- Drop `pat` from the front of `l`, or fail — Rust's `str::strip_prefix`
(ASCII patterns only are used, where char-level and byte-level agree). -/
def dropPat? : List Char → List Char → Option (List Char)
  | l, [] => some l
  | [], _ :: _ => none
  | c :: l, p :: ps => if c = p then dropPat? l ps else none

/-- Rust's `str::strip_prefix` on strings. -/
def stripPat? (s pat : String) : Option String :=
  (dropPat? s.data pat.data).map String.mk

/-- One pass of Rust's `str::trim_start_matches` loop, with fuel. -/
def trimPatRep (pat : List Char) : Nat → List Char → List Char
  | 0, l => l
  | fuel+1, l =>
    match dropPat? l pat with
    | some l' => if pat.isEmpty then l else trimPatRep pat fuel l'
    | none => l

/-- Rust's `str::trim_start_matches`: repeatedly removes the pattern from the
front.  `s.data.length` fuel is ample since each round removes ≥ 1 char. -/
def trimStartMatches (s pat : String) : String :=
  String.mk (trimPatRep pat.data s.data.length s.data)

/-- Split a char list at the first `':'` — Rust's `splitn(2, ':')` followed by
two `next()?` calls succeeds exactly when a `':'` is present, yielding the part
before the first `':'` and everything after it. -/
def splitColon : List Char → Option (List Char × List Char)
  | [] => none
  | c :: cs =>
    if c = ':' then some ([], cs)
    else (splitColon cs).map (fun p => (c :: p.1, p.2))

def splitOnceColon (s : String) : Option (String × String) :=
  (splitColon s.data).map (fun p => (String.mk p.1, String.mk p.2))

/-! ## Filesystem paths (`std::path::PathBuf`) -/

/-- A `PathBuf`: absolute flag plus components.  `join` with an absolute
argument replaces the whole path, as in Rust; no normalization of `..` or `.`
is ever performed by `PathBuf` itself. -/
structure RPath where
  absolute : Bool
  segs : List String
deriving DecidableEq

/-- Split a char list into the groups between `'/'` separators. -/
def splitSlash : List Char → List (List Char)
  | [] => [[]]
  | c :: cs =>
    match splitSlash cs with
    | [] => [[]]
    | g :: gs => if c = '/' then [] :: g :: gs else (c :: g) :: gs

def parsePath (s : String) : RPath :=
  { absolute := match s.data with | '/' :: _ => true | _ => false,
    segs := ((splitSlash s.data).map String.mk).filter (· ≠ "") }

def RPath.join (p : RPath) (s : String) : RPath :=
  let q := parsePath s
  if q.absolute then q else { absolute := p.absolute, segs := p.segs ++ q.segs }

/-- Interleave `'/'` between component char lists. -/
def interSlash : List (List Char) → List Char
  | [] => []
  | [g] => g
  | g :: g' :: gs => g ++ '/' :: interSlash (g' :: gs)

/-- Render a path the way it is handed to the spawned process (`&repo_path`). -/
def pathStr (p : RPath) : String :=
  String.mk ((if p.absolute then ['/'] else []) ++ interSlash (p.segs.map String.data))

/-- Resolution of `.` and `..` components by the operating system when the path
is actually opened (not something the gateway code does). -/
def normSegs (l : List String) : List String :=
  l.foldl (fun acc s => if s = "." then acc else if s = ".." then acc.dropLast else acc ++ [s]) []

/-! ## HTTP and subprocess data model -/

/-- An `actix_web::HttpResponse` as the handlers build it: status code, the
`Content-Type` if set via `.content_type(..)`, extra headers appended via
`.append_header(..)`, and the body (empty for `.finish()`). -/
structure Response where
  status : Nat
  contentType : Option String
  headers : List (String × String)
  body : Bytes
deriving DecidableEq

def unauthorizedGit : Response :=
  { status := 401, contentType := none,
    headers := [("WWW-Authenticate", "Basic realm=\"Git\"")], body := [] }

def badRequestEmpty : Response :=
  { status := 400, contentType := none, headers := [], body := [] }

def serverErrorEmpty : Response :=
  { status := 500, contentType := none, headers := [], body := [] }

def notFoundEmpty : Response :=
  { status := 404, contentType := none, headers := [], body := [] }

/-- Result of a finished helper process (`std::process::Output`). -/
structure ProcOutput where
  exitSuccess : Bool
  stdout : Bytes
  stderr : Bytes
deriving DecidableEq

/-- A spawned child with piped streams: whether `write_all` to its stdin
succeeds, whether `wait_with_output` succeeds, and the collected output. -/
structure SpawnedChild where
  writeOk : Bool
  waitOk : Bool
  out : ProcOutput
deriving DecidableEq

/-- Observable side effects of a handler, in the order they happen. -/
inductive Effect where
  | spawn (cmd : String) (args : List String)
  | writeStdin (data : Bytes)
  | closeStdin
  | wait
  | logErr (context : String) (stderr : Bytes)
deriving DecidableEq

/-- A handler either produces an HTTP response after the listed effects, or
panics (a Rust `.expect(..)` failure) after the listed effects — in which case
no HTTP response is ever constructed by the handler. -/
inductive Outcome where
  | respond (r : Response) (effects : List Effect)
  | panic (msg : String) (effects : List Effect)
deriving DecidableEq

def outcomeEffects : Outcome → List Effect
  | .respond _ effs => effs
  | .panic _ effs => effs

def isSpawn : Effect → Bool
  | .spawn _ _ => true
  | _ => false

/-! ## Auth gate (`api/user.rs::check_auth`) -/

structure User where
  username : String
deriving DecidableEq

/-- Per-request view of the externals `check_auth` consults: the raw
`Authorization` header (already a UTF-8 `str`, i.e. after `HeaderValue::to_str`),
the base64 engine's `decode`, `String::from_utf8` and the identity store's
`User::authenticate`. -/
structure AuthContext where
  authHeader : Option String
  base64Decode : String → Option Bytes
  utf8Decode : Bytes → Option String
  dbAuthenticate : String → String → Option User

/-- `check_auth` from `src/backend/src/api/user.rs`, line for line: require the
header, require the `Basic ` scheme, strip it (`trim_start_matches`),
base64-decode, UTF-8-decode, split once on `':'`, then ask the identity store.
Every failure collapses to `none`. -/
def checkAuth (ctx : AuthContext) : Option User :=
  match ctx.authHeader with
  | none => none
  | some authStr =>
    if (dropPat? authStr.data "Basic ".data).isSome then
      match ctx.base64Decode (trimStartMatches authStr "Basic ") with
      | none => none
      | some credentials =>
        match ctx.utf8Decode credentials with
        | none => none
        | some credentialsStr =>
          match splitOnceColon credentialsStr with
          | none => none
          | some (username, password) => ctx.dbAuthenticate username password
    else none

/-! ## Repository locator -/

/-- `PathBuf::from("repositories").join(format!("{}.git", repo_name))`. -/
def repoPath (repoName : String) : RPath :=
  (parsePath "repositories").join (repoName ++ ".git")

/-! ## Service negotiator: `handle_info_refs` -/

/-- The body built at main.rs lines 224–241: 4-hex-digit length prefix of the
service header (header byte length + 4), the header, the literal flush marker
`"0000"`, then the helper's stdout appended verbatim. -/
def infoRefsBody (service : String) (helperStdout : Bytes) : Bytes :=
  let serviceHeader := "# service=" ++ service ++ "\n"
  let headerLength := rustLen serviceHeader + 4
  strBytes (format04x headerLength) ++ strBytes serviceHeader ++ strBytes "0000" ++ helperStdout

/-- `handle_info_refs` (main.rs lines 185–247).  `runRes` is the result of
`Command::output()` for the advertise-refs helper: `none` models an `Err` from
`output()` (the source `.expect`s it, i.e. panics). -/
def handle_info_refs (ctx : AuthContext) (repoName queryString : String)
    (runRes : Option ProcOutput) : Outcome :=
  match checkAuth ctx with
  | none => .respond unauthorizedGit []
  | some _ =>
    match stripPat? queryString "service=" with
    | none => .respond badRequestEmpty []
    | some service =>
      let gitCommand := if service = "git-upload-pack" then "upload-pack" else "receive-pack"
      let spawnEff := Effect.spawn "git" [gitCommand, "--advertise-refs", pathStr (repoPath repoName)]
      match runRes with
      | none => .panic "Failed to execute git command" [spawnEff]
      | some output =>
        if output.exitSuccess then
          .respond { status := 200,
                     contentType := some ("application/x-" ++ service ++ "-advertisement"),
                     headers := [],
                     body := infoRefsBody service output.stdout }
            [spawnEff, .wait]
        else
          .respond serverErrorEmpty
            [spawnEff, .wait, .logErr "git command failed" output.stderr]

/-! ## Process bridge: `handle_upload_pack`, `handle_receive_pack` -/

/-- `handle_upload_pack` (main.rs lines 269–311).  `spawnRes = none` models a
spawn `Err` (the source `.expect`s the spawn, the stdin write and the wait,
i.e. panics on each). -/
def handle_upload_pack (ctx : AuthContext) (repoName : String) (body : Bytes)
    (spawnRes : Option SpawnedChild) : Outcome :=
  match checkAuth ctx with
  | none => .respond unauthorizedGit []
  | some _ =>
    let spawnEff := Effect.spawn "git" ["upload-pack", "--stateless-rpc", pathStr (repoPath repoName)]
    match spawnRes with
    | none => .panic "Failed to spawn git-upload-pack" [spawnEff]
    | some child =>
      if child.writeOk then
        if child.waitOk then
          if child.out.exitSuccess then
            .respond { status := 200,
                       contentType := some "application/x-git-upload-pack-result",
                       headers := [],
                       body := child.out.stdout }
              [spawnEff, .writeStdin body, .closeStdin, .wait]
          else
            .respond serverErrorEmpty
              [spawnEff, .writeStdin body, .closeStdin, .wait,
               .logErr "git-upload-pack failed" child.out.stderr]
        else .panic "Failed to wait for git-upload-pack" [spawnEff, .writeStdin body, .closeStdin]
      else .panic "Failed to write to git-upload-pack stdin" [spawnEff, .writeStdin body]

/-- `handle_receive_pack` (main.rs lines 333–376): identical to the upload
handler apart from the sub-command and content type; it binds the
authenticated username and never uses it again. -/
def handle_receive_pack (ctx : AuthContext) (repoName : String) (body : Bytes)
    (spawnRes : Option SpawnedChild) : Outcome :=
  match checkAuth ctx with
  | none => .respond unauthorizedGit []
  | some user =>
    let _username := user.username
    let spawnEff := Effect.spawn "git" ["receive-pack", "--stateless-rpc", pathStr (repoPath repoName)]
    match spawnRes with
    | none => .panic "Failed to spawn git-receive-pack" [spawnEff]
    | some child =>
      if child.writeOk then
        if child.waitOk then
          if child.out.exitSuccess then
            .respond { status := 200,
                       contentType := some "application/x-git-receive-pack-result",
                       headers := [],
                       body := child.out.stdout }
              [spawnEff, .writeStdin body, .closeStdin, .wait]
          else
            .respond serverErrorEmpty
              [spawnEff, .writeStdin body, .closeStdin, .wait,
               .logErr "git-receive-pack failed" child.out.stderr]
        else .panic "Failed to wait for git-receive-pack" [spawnEff, .writeStdin body, .closeStdin]
      else .panic "Failed to write to git-receive-pack stdin" [spawnEff, .writeStdin body]

/-! ## Static object server -/

def infoPacksPath (repoName : String) : RPath :=
  (repoPath repoName).join "objects/info/packs"

/-- `handle_info_packs` (main.rs lines 394–406): a raw `fs::read`, `Err ⇒ 404`.
No authentication.  `fs` is the filesystem oracle. -/
def handle_info_packs (fs : RPath → Option Bytes) (repoName : String) : Response :=
  match fs (infoPacksPath repoName) with
  | some content => { status := 200, contentType := some "text/plain", headers := [], body := content }
  | none => notFoundEmpty

/-- The path read by `handle_pack_file`: the client-supplied segment is joined
directly, with no validation or normalization. -/
def packFilePath (repoName packFile : String) : RPath :=
  ((repoPath repoName).join "objects/pack").join packFile

/-- `handle_pack_file` (main.rs lines 418–433): raw `fs::read` of the joined
path, `Err ⇒ 404`.  No authentication, no sanitization of `pack_file`. -/
def handle_pack_file (fs : RPath → Option Bytes) (repoName packFile : String) : Response :=
  match fs (packFilePath repoName packFile) with
  | some content => { status := 200, contentType := some "application/x-git-pack", headers := [], body := content }
  | none => notFoundEmpty

/-- `handle_text_file` (main.rs lines 449–468): runs
`git --git-dir repositories/{repo}.git show HEAD:{path}` via `output()` and
matches on the `Result`: only `Ok` with success exit gives 200, everything else
(including a spawn error, `runRes = none`) gives 404 — no panic here. -/
def handle_text_file (repoName path : String) (runRes : Option ProcOutput) : Outcome :=
  let args := ["--git-dir", "repositories/" ++ repoName ++ ".git", "show", "HEAD:" ++ path]
  match runRes with
  | some output =>
    if output.exitSuccess then
      .respond { status := 200, contentType := some "text/plain", headers := [], body := output.stdout }
        [.spawn "git" args, .wait]
    else .respond notFoundEmpty [.spawn "git" args, .wait]
  | none => .respond notFoundEmpty [.spawn "git" args]

/-! ## Helper lemmas -/

theorem hexDigitVal_hexDigitChar (n : Nat) (h : n < 16) :
    hexDigitVal (hexDigitChar n) = n := by
  interval_cases n <;> decide

theorem hexDigitChar_mem (n : Nat) (h : n < 16) : hexDigitChar n ∈ hexDigits := by
  interval_cases n <;> decide

theorem hexVal_append_digit (l : List Char) (c : Char) :
    hexVal (l ++ [c]) = 16 * hexVal l + hexDigitVal c := by
  simp [hexVal, List.foldl_append]

theorem hexVal_toHexCore (fuel : Nat) : ∀ n : Nat, n < 16 ^ fuel →
    hexVal (toHexCore fuel n) = n := by
  induction fuel with
  | zero =>
    intro n h
    simp only [pow_zero, Nat.lt_one_iff] at h
    simp [h, toHexCore, hexVal]
  | succ fuel ih =>
    intro n h
    by_cases hn : n < 16
    · simp [toHexCore, hn, hexVal, hexDigitVal_hexDigitChar n hn]
    · have hdiv : n / 16 < 16 ^ fuel := by
        rw [Nat.div_lt_iff_lt_mul (by norm_num : 0 < 16)]
        calc n < 16 ^ (fuel + 1) := h
          _ = 16 ^ fuel * 16 := by ring
      simp only [toHexCore, hn, if_false]
      rw [hexVal_append_digit, ih _ hdiv,
        hexDigitVal_hexDigitChar _ (Nat.mod_lt _ (by norm_num))]
      omega

theorem length_toHexCore_le (fuel : Nat) : ∀ n k : Nat, 0 < k → n < 16 ^ k →
    (toHexCore fuel n).length ≤ k := by
  induction fuel with
  | zero => intro n k hk _; simp [toHexCore]
  | succ fuel ih =>
    intro n k hk h
    by_cases hn : n < 16
    · simp [toHexCore, hn]; omega
    · match k, hk with
      | 1, _ => exact absurd h (by simpa using hn)
      | k + 2, _ =>
        have hdiv : n / 16 < 16 ^ (k + 1) := by
          rw [Nat.div_lt_iff_lt_mul (by norm_num : 0 < 16)]
          calc n < 16 ^ (k + 2) := h
            _ = 16 ^ (k + 1) * 16 := by ring
        have := ih (n / 16) (k + 1) (Nat.succ_pos _) hdiv
        simp only [toHexCore, hn, if_false, List.length_append, List.length_cons,
          List.length_nil]
        omega

theorem length_toHexCore_gt (fuel : Nat) : ∀ n k : Nat, 16 ^ k ≤ n → n < 16 ^ fuel →
    k < (toHexCore fuel n).length := by
  induction fuel with
  | zero =>
    intro n k hk h
    have : 0 < 16 ^ k := Nat.pos_pow_of_pos _ (by norm_num)
    simp only [pow_zero, Nat.lt_one_iff] at h
    omega
  | succ fuel ih =>
    intro n k hk h
    by_cases hn : n < 16
    · have hk0 : k = 0 := by
        by_contra hne
        have : 16 ^ 1 ≤ 16 ^ k := Nat.pow_le_pow_right (by norm_num) (by omega)
        simp only [pow_one] at this
        omega
      simp [toHexCore, hn, hk0]
    · match k with
      | 0 =>
        simp only [toHexCore, hn, if_false, List.length_append, List.length_cons,
          List.length_nil]
        omega
      | j + 1 =>
        have hdiv : n / 16 < 16 ^ fuel := by
          rw [Nat.div_lt_iff_lt_mul (by norm_num : 0 < 16)]
          calc n < 16 ^ (fuel + 1) := h
            _ = 16 ^ fuel * 16 := by ring
        have hge : 16 ^ j ≤ n / 16 := by
          rw [Nat.le_div_iff_mul_le (by norm_num : 0 < 16)]
          calc 16 ^ j * 16 = 16 ^ (j + 1) := by ring
            _ ≤ n := hk
        have := ih (n / 16) j hge hdiv
        simp only [toHexCore, hn, if_false, List.length_append, List.length_cons,
          List.length_nil]
        omega

theorem mem_toHexCore (fuel : Nat) : ∀ n c, c ∈ toHexCore fuel n → c ∈ hexDigits := by
  induction fuel with
  | zero => intro n c hc; simp [toHexCore] at hc
  | succ fuel ih =>
    intro n c hc
    by_cases hn : n < 16
    · simp only [toHexCore, hn, if_true, List.mem_singleton] at hc
      exact hc ▸ hexDigitChar_mem n hn
    · simp only [toHexCore, hn, if_false, List.mem_append, List.mem_singleton] at hc
      rcases hc with hc | hc
      · exact ih _ _ hc
      · exact hc ▸ hexDigitChar_mem _ (Nat.mod_lt _ (by norm_num))

theorem hexVal_replicate_zero (z : Nat) (l : List Char) :
    hexVal (List.replicate z '0' ++ l) = hexVal l := by
  induction z with
  | zero => simp
  | succ z ih => simpa [hexVal, List.replicate_succ] using ih

theorem format04x_data (n : Nat) :
    (format04x n).data = List.replicate (4 - (toHexCore 17 n).length) '0' ++ toHexCore 17 n := rfl

/-- For any value below `2^64` (every Rust `usize`), the emitted digits decode
back to the value. -/
theorem hexVal_format04x (n : Nat) (h : n < 16 ^ 17) :
    hexVal (format04x n).data = n := by
  rw [format04x_data, hexVal_replicate_zero, hexVal_toHexCore 17 n h]

theorem length_format04x_of_le (n : Nat) (h : n ≤ 65535) :
    (format04x n).data.length = 4 := by
  have hle : (toHexCore 17 n).length ≤ 4 :=
    length_toHexCore_le 17 n 4 (by norm_num) (by norm_num; omega)
  rw [format04x_data]
  simp only [List.length_append, List.length_replicate]
  omega

theorem length_format04x_of_ge (n : Nat) (h : 65536 ≤ n) (h' : n < 16 ^ 17) :
    5 ≤ (format04x n).data.length := by
  have hgt : 4 < (toHexCore 17 n).length :=
    length_toHexCore_gt 17 n 4 (by norm_num; omega) h'
  rw [format04x_data]
  simp only [List.length_append, List.length_replicate]
  omega

theorem mem_format04x (n : Nat) : ∀ c ∈ (format04x n).data, c ∈ hexDigits := by
  intro c hc
  rw [format04x_data] at hc
  rcases List.mem_append.mp hc with hc | hc
  · rw [List.eq_of_mem_replicate hc]; decide
  · exact mem_toHexCore 17 n c hc

theorem strBytes_append (a b : String) : strBytes (a ++ b) = strBytes a ++ strBytes b := by
  simp [strBytes, String.data_append]

theorem rustLen_append (a b : String) : rustLen (a ++ b) = rustLen a + rustLen b := by
  simp [rustLen, strBytes_append]

theorem rustLen_mk_replicate_a (n : Nat) :
    rustLen (String.mk (List.replicate n 'a')) = n := by
  induction n with
  | zero => rfl
  | succ n ih =>
    have : strBytes (String.mk (List.replicate (n + 1) 'a')) =
        charUtf8 'a' ++ strBytes (String.mk (List.replicate n 'a')) := by
      simp [strBytes, List.replicate_succ]
    simp only [rustLen] at ih ⊢
    rw [this, List.length_append, ih]
    have h1 : (charUtf8 'a').length = 1 := by decide
    omega

theorem dropPat?_append (p : List Char) (l : List Char) : dropPat? (p ++ l) p = some l := by
  induction p with
  | nil => simp [dropPat?]
  | cons c cs ih => simp [dropPat?, ih]

theorem stripPat?_append (p s : String) : stripPat? (p ++ s) p = some s := by
  simp [stripPat?, String.data_append, dropPat?_append]

theorem splitColon_eq_none (l : List Char) (h : ∀ c ∈ l, c ≠ ':') :
    splitColon l = none := by
  induction l with
  | nil => rfl
  | cons c cs ih =>
    have hc : ¬ c = ':' := h c (List.mem_cons_self c cs)
    simp [splitColon, hc, ih fun x hx => h x (List.mem_cons_of_mem c hx)]

theorem splitOnceColon_eq_none (s : String) (h : ∀ c ∈ s.data, c ≠ ':') :
    splitOnceColon s = none := by
  simp [splitOnceColon, splitColon_eq_none s.data h]

/-! ## Concrete fixtures for witnesses and counterexamples -/

def userOk : User := ⟨"alice"⟩

/-- A request context whose externals all succeed: a well-formed
`Authorization: Basic YWxpY2U6cHc=` header, decoders that accept it, and an
identity store that recognizes the credentials. -/
def ctxOk : AuthContext :=
  { authHeader := some "Basic YWxpY2U6cHc=",
    base64Decode := fun _ => some (strBytes "alice:pw"),
    utf8Decode := fun _ => some "alice:pw",
    dbAuthenticate := fun _ _ => some userOk }

/-- A second authenticated identity, distinct from `userOk`. -/
def ctxBob : AuthContext :=
  { authHeader := some "Basic Ym9iOnB3",
    base64Decode := fun _ => some (strBytes "bob:pw"),
    utf8Decode := fun _ => some "bob:pw",
    dbAuthenticate := fun _ _ => some ⟨"bob"⟩ }

/-- A request with no `Authorization` header at all. -/
def ctxNoHeader : AuthContext :=
  { authHeader := none,
    base64Decode := fun _ => none,
    utf8Decode := fun _ => none,
    dbAuthenticate := fun _ _ => none }

/-! ## C1 -/

/-- C1: an authenticated `GET /git/{repo}/info/refs?service=git-upload-pack`
whose helper run succeeds yields 200 with content type
`application/x-git-upload-pack-advertisement`, and the body is exactly one
pkt-line framing `"# service=git-upload-pack\n"` — a 4-lowercase-hex-digit
prefix equal to the 26-byte payload length + 4 (`"001e"`) — then the flush
marker `"0000"`, then the helper's stdout appended verbatim. -/
theorem infoRefs_uploadPack_ok (ctx : AuthContext) (u : User) (repoName : String)
    (outBytes errBytes : Bytes) (hauth : checkAuth ctx = some u) :
    handle_info_refs ctx repoName "service=git-upload-pack" (some ⟨true, outBytes, errBytes⟩) =
      .respond { status := 200,
                 contentType := some "application/x-git-upload-pack-advertisement",
                 headers := [],
                 body := strBytes "001e" ++ strBytes "# service=git-upload-pack\n"
                           ++ strBytes "0000" ++ outBytes }
        [.spawn "git" ["upload-pack", "--advertise-refs", pathStr (repoPath repoName)], .wait]
    ∧ format04x (rustLen "# service=git-upload-pack\n" + 4) = "001e"
    ∧ rustLen "# service=git-upload-pack\n" + 4 = 30
    ∧ hexVal "001e".data = 30
    ∧ "001e".data.length = 4
    ∧ ∀ c ∈ "001e".data, c ∈ hexDigits := by
  have hsvc : stripPat? "service=git-upload-pack" "service=" = some "git-upload-pack" := by
    decide
  have hfmt : format04x (rustLen "# service=git-upload-pack\n" + 4) = "001e" := by decide
  refine ⟨?_, hfmt, by decide, by decide, by decide, by decide⟩
  simp [handle_info_refs, hauth, hsvc, infoRefsBody, hfmt]

theorem infoRefs_uploadPack_ok_witness :
    checkAuth ctxOk = some userOk ∧
    handle_info_refs ctxOk "r" "service=git-upload-pack" (some ⟨true, [9, 9], []⟩) =
      .respond { status := 200,
                 contentType := some "application/x-git-upload-pack-advertisement",
                 headers := [],
                 body := strBytes "001e" ++ strBytes "# service=git-upload-pack\n"
                           ++ strBytes "0000" ++ [9, 9] }
        [.spawn "git" ["upload-pack", "--advertise-refs", pathStr (repoPath "r")], .wait] :=
  ⟨by decide, (infoRefs_uploadPack_ok ctxOk userOk "r" [9, 9] [] (by decide)).1⟩

/-! ## C2 -/

/-- C2: an authenticated `POST /git/{repo}/git-upload-pack` performs exactly one
helper invocation; the whole request body is written to the helper's stdin,
the stdin stream is closed, and only then does the handler wait for exit; on a
zero exit status the response is 200 with content type
`application/x-git-upload-pack-result` and a body equal to the helper's stdout
byte for byte.  The explicit effect trace fixes the order
spawn → write(body) → close → wait, and its spawn count is 1. -/
theorem uploadPack_bridge_ok (ctx : AuthContext) (u : User) (repoName : String)
    (body : Bytes) (child : SpawnedChild) (hauth : checkAuth ctx = some u)
    (hw : child.writeOk = true) (hwt : child.waitOk = true)
    (hs : child.out.exitSuccess = true) :
    handle_upload_pack ctx repoName body (some child) =
      .respond { status := 200,
                 contentType := some "application/x-git-upload-pack-result",
                 headers := [],
                 body := child.out.stdout }
        [.spawn "git" ["upload-pack", "--stateless-rpc", pathStr (repoPath repoName)],
         .writeStdin body, .closeStdin, .wait]
    ∧ ((outcomeEffects (handle_upload_pack ctx repoName body (some child))).filter isSpawn).length
        = 1 := by
  have h1 : handle_upload_pack ctx repoName body (some child) =
      .respond { status := 200,
                 contentType := some "application/x-git-upload-pack-result",
                 headers := [],
                 body := child.out.stdout }
        [.spawn "git" ["upload-pack", "--stateless-rpc", pathStr (repoPath repoName)],
         .writeStdin body, .closeStdin, .wait] := by
    simp [handle_upload_pack, hauth, hw, hwt, hs]
  refine ⟨h1, ?_⟩
  rw [h1]
  simp [outcomeEffects, isSpawn, List.filter]

theorem uploadPack_bridge_ok_witness :
    checkAuth ctxOk = some userOk ∧
    handle_upload_pack ctxOk "r" [0, 1, 2] (some ⟨true, true, ⟨true, [3, 4], []⟩⟩) =
      .respond { status := 200,
                 contentType := some "application/x-git-upload-pack-result",
                 headers := [],
                 body := [3, 4] }
        [.spawn "git" ["upload-pack", "--stateless-rpc", pathStr (repoPath "r")],
         .writeStdin [0, 1, 2], .closeStdin, .wait] :=
  ⟨by decide,
   (uploadPack_bridge_ok ctxOk userOk "r" [0, 1, 2] ⟨true, true, ⟨true, [3, 4], []⟩⟩
      (by decide) rfl rfl rfl).1⟩

/-! ## C3 -/

/-- C3 counterexample: the claim says an authenticated `info/refs` whose
`service` value is neither `git-upload-pack` nor `git-receive-pack` gets a
400 with no helper run.  In the code, `BadRequest` is produced only when the
query string does not start with `service=`; any other value falls into the
`else` arm of the command selection and the *receive-pack* helper runs: with
`service=evil` the handler spawns `git receive-pack --advertise-refs` and
answers 200, not 400. -/
theorem infoRefs_unsupported_service_cex :
    handle_info_refs ctxOk "r" "service=evil" (some ⟨true, [1, 2, 3], []⟩) =
      .respond { status := 200,
                 contentType := some "application/x-evil-advertisement",
                 headers := [],
                 body := strBytes "0013# service=evil\n0000" ++ [1, 2, 3] }
        [.spawn "git" ["receive-pack", "--advertise-refs", "repositories/r.git"], .wait]
    ∧ checkAuth ctxOk = some userOk
    ∧ handle_info_refs ctxOk "r" "service=evil" (some ⟨true, [1, 2, 3], []⟩) ≠
        .respond badRequestEmpty [] := by
  refine ⟨by decide, by decide, ?_⟩
  intro h
  rw [show handle_info_refs ctxOk "r" "service=evil" (some ⟨true, [1, 2, 3], []⟩) =
      .respond { status := 200,
                 contentType := some "application/x-evil-advertisement",
                 headers := [],
                 body := strBytes "0013# service=evil\n0000" ++ [1, 2, 3] }
        [.spawn "git" ["receive-pack", "--advertise-refs", "repositories/r.git"], .wait]
    from by decide] at h
  simp [badRequestEmpty] at h

/-- C3 amended: on an authenticated `info/refs`, a query string that does not
begin with `service=` yields 400 with no helper effect; when it does begin with
`service=`, the value `git-upload-pack` dispatches the upload-pack helper and
*every other value* (supported or not) dispatches the receive-pack helper — no
unsupported value is rejected. -/
theorem infoRefs_service_dispatch (ctx : AuthContext) (u : User)
    (repoName q : String) (runRes : Option ProcOutput)
    (hauth : checkAuth ctx = some u) :
    (stripPat? q "service=" = none →
      handle_info_refs ctx repoName q runRes = .respond badRequestEmpty [])
    ∧ (∀ s, stripPat? q "service=" = some s → s ≠ "git-upload-pack" →
        (outcomeEffects (handle_info_refs ctx repoName q runRes)).head? =
          some (.spawn "git" ["receive-pack", "--advertise-refs", pathStr (repoPath repoName)]))
    ∧ (∀ s, stripPat? q "service=" = some s → s = "git-upload-pack" →
        (outcomeEffects (handle_info_refs ctx repoName q runRes)).head? =
          some (.spawn "git" ["upload-pack", "--advertise-refs", pathStr (repoPath repoName)])) := by
  refine ⟨?_, ?_, ?_⟩
  · intro hq
    simp [handle_info_refs, hauth, hq]
  · intro s hq hne
    cases runRes with
    | none => simp [handle_info_refs, hauth, hq, hne, outcomeEffects]
    | some output =>
      cases hex : output.exitSuccess <;>
        simp [handle_info_refs, hauth, hq, hne, hex, outcomeEffects]
  · intro s hq heq
    subst heq
    cases runRes with
    | none => simp [handle_info_refs, hauth, hq, outcomeEffects]
    | some output =>
      cases hex : output.exitSuccess <;>
        simp [handle_info_refs, hauth, hq, hex, outcomeEffects]

theorem infoRefs_service_dispatch_witness :
    handle_info_refs ctxOk "r" "nonsense" none = .respond badRequestEmpty [] :=
  (infoRefs_service_dispatch ctxOk userOk "r" "nonsense" none (by decide)).1 (by decide)

/-! ## C4 -/

/-- C4 counterexample: the claim says every pack-transfer endpoint answers 404
(never 500) for a nonexistent repository.  The transfer handlers never check
the path: they spawn the helper against the missing directory, `git` exits
nonzero (`fatal: ... does not appear to be a git repository`), and the handler
maps the nonzero exit to 500 InternalServerError — a 500-class response, not
404. -/
theorem uploadPack_missing_repo_cex :
    handle_upload_pack ctxOk "ghost" []
        (some ⟨true, true,
          ⟨false, [], strBytes "fatal: 'repositories/ghost.git' does not appear to be a git repository"⟩⟩) =
      .respond serverErrorEmpty
        [.spawn "git" ["upload-pack", "--stateless-rpc", "repositories/ghost.git"],
         .writeStdin [], .closeStdin, .wait,
         .logErr "git-upload-pack failed"
           (strBytes "fatal: 'repositories/ghost.git' does not appear to be a git repository")]
    ∧ serverErrorEmpty.status = 500
    ∧ serverErrorEmpty.status ≠ 404 := by
  refine ⟨by decide, by decide, by decide⟩

/-- C4 amended: for a repository whose path does not exist, the three *object*
endpoints do answer 404 — `objects/info/packs` and `objects/pack/{file}` when
the filesystem read fails, `file/{path}` when the helper exits nonzero — but
the two pack-transfer endpoints perform no existence check at all: they spawn
the helper on the missing path and translate its nonzero exit into a 500
InternalServerError. -/
theorem missing_repo_statuses (fs : RPath → Option Bytes) (ctx : AuthContext) (u : User)
    (repoName packFile filePath : String) (body : Bytes)
    (child : SpawnedChild) (o : ProcOutput)
    (hauth : checkAuth ctx = some u)
    (hw : child.writeOk = true) (hwt : child.waitOk = true)
    (hpacks : fs (infoPacksPath repoName) = none)
    (hpack : fs (packFilePath repoName packFile) = none)
    (hshow : o.exitSuccess = false)
    (hfail : child.out.exitSuccess = false) :
    handle_info_packs fs repoName = notFoundEmpty
    ∧ handle_pack_file fs repoName packFile = notFoundEmpty
    ∧ handle_text_file repoName filePath (some o) =
        .respond notFoundEmpty
          [.spawn "git" ["--git-dir", "repositories/" ++ repoName ++ ".git", "show",
             "HEAD:" ++ filePath], .wait]
    ∧ handle_upload_pack ctx repoName body (some child) =
        .respond serverErrorEmpty
          [.spawn "git" ["upload-pack", "--stateless-rpc", pathStr (repoPath repoName)],
           .writeStdin body, .closeStdin, .wait,
           .logErr "git-upload-pack failed" child.out.stderr]
    ∧ handle_receive_pack ctx repoName body (some child) =
        .respond serverErrorEmpty
          [.spawn "git" ["receive-pack", "--stateless-rpc", pathStr (repoPath repoName)],
           .writeStdin body, .closeStdin, .wait,
           .logErr "git-receive-pack failed" child.out.stderr]
    ∧ notFoundEmpty.status = 404
    ∧ serverErrorEmpty.status = 500 := by
  refine ⟨?_, ?_, ?_, ?_, ?_, by decide, by decide⟩
  · simp [handle_info_packs, hpacks]
  · simp [handle_pack_file, hpack]
  · simp [handle_text_file, hshow]
  · simp [handle_upload_pack, hauth, hw, hwt, hfail]
  · simp [handle_receive_pack, hauth, hw, hwt, hfail]

theorem missing_repo_statuses_witness :
    handle_info_packs (fun _ => none) "ghost" = notFoundEmpty
    ∧ handle_pack_file (fun _ => none) "ghost" "p.pack" = notFoundEmpty :=
  have h := missing_repo_statuses (fun _ => none) ctxOk userOk "ghost" "p.pack" "f" []
    ⟨true, true, ⟨false, [], []⟩⟩ ⟨false, [], []⟩ (by decide) rfl rfl rfl rfl rfl rfl
  ⟨h.1, h.2.1⟩

/-! ## C5 -/

/-- C5: every authentication failure mode — missing header, non-`Basic `
scheme, base64 decode failure, non-UTF-8 decoded credentials, no `':'`
separator, credentials the identity store rejects — collapses to the same
`none` with no distinction, and with `checkAuth = none` each protocol endpoint
(`info/refs`, `git-upload-pack`, `git-receive-pack`) answers 401 with the
header `WWW-Authenticate: Basic realm="Git"`, an empty body, and an empty
effect trace — in particular no helper process is spawned. -/
theorem auth_failures_uniform (ctx : AuthContext) (repoName q : String) (body : Bytes)
    (runRes : Option ProcOutput) (spawnRes : Option SpawnedChild) :
    (ctx.authHeader = none → checkAuth ctx = none)
    ∧ (∀ s, ctx.authHeader = some s → dropPat? s.data "Basic ".data = none →
        checkAuth ctx = none)
    ∧ (∀ s, ctx.authHeader = some s →
        ctx.base64Decode (trimStartMatches s "Basic ") = none → checkAuth ctx = none)
    ∧ (∀ s cred, ctx.authHeader = some s →
        ctx.base64Decode (trimStartMatches s "Basic ") = some cred →
        ctx.utf8Decode cred = none → checkAuth ctx = none)
    ∧ (∀ s cred cs, ctx.authHeader = some s →
        ctx.base64Decode (trimStartMatches s "Basic ") = some cred →
        ctx.utf8Decode cred = some cs → (∀ c ∈ cs.data, c ≠ ':') →
        checkAuth ctx = none)
    ∧ (∀ s cred cs un pw, ctx.authHeader = some s →
        ctx.base64Decode (trimStartMatches s "Basic ") = some cred →
        ctx.utf8Decode cred = some cs → splitOnceColon cs = some (un, pw) →
        ctx.dbAuthenticate un pw = none → checkAuth ctx = none)
    ∧ (checkAuth ctx = none →
        handle_info_refs ctx repoName q runRes = .respond unauthorizedGit []
        ∧ handle_upload_pack ctx repoName body spawnRes = .respond unauthorizedGit []
        ∧ handle_receive_pack ctx repoName body spawnRes = .respond unauthorizedGit [])
    ∧ unauthorizedGit.status = 401
    ∧ unauthorizedGit.headers = [("WWW-Authenticate", "Basic realm=\"Git\"")]
    ∧ unauthorizedGit.body = [] := by
  refine ⟨?_, ?_, ?_, ?_, ?_, ?_, ?_, by decide, by decide, by decide⟩
  · intro h; simp [checkAuth, h]
  · intro s hs hb; simp [checkAuth, hs, hb]
  · intro s hs hb64
    simp only [checkAuth, hs]
    cases hd : (dropPat? s.data "Basic ".data).isSome <;> simp [hd, hb64]
  · intro s cred hs hb64 hu8
    simp only [checkAuth, hs]
    cases hd : (dropPat? s.data "Basic ".data).isSome <;> simp [hd, hb64, hu8]
  · intro s cred cs hs hb64 hu8 hnc
    simp only [checkAuth, hs]
    cases hd : (dropPat? s.data "Basic ".data).isSome <;>
      simp [hd, hb64, hu8, splitOnceColon_eq_none cs hnc]
  · intro s cred cs un pw hs hb64 hu8 hsplit hdb
    simp only [checkAuth, hs]
    cases hd : (dropPat? s.data "Basic ".data).isSome <;>
      simp [hd, hb64, hu8, hsplit, hdb]
  · intro hnone
    exact ⟨by simp [handle_info_refs, hnone],
           by simp [handle_upload_pack, hnone],
           by simp [handle_receive_pack, hnone]⟩

theorem auth_failures_uniform_witness :
    checkAuth ctxNoHeader = none
    ∧ handle_info_refs ctxNoHeader "r" "service=git-upload-pack" none =
        .respond unauthorizedGit []
    ∧ handle_upload_pack ctxNoHeader "r" [1] none = .respond unauthorizedGit []
    ∧ handle_receive_pack ctxNoHeader "r" [1] none = .respond unauthorizedGit [] :=
  have h := auth_failures_uniform ctxNoHeader "r" "service=git-upload-pack" [1] none none
  have hn : checkAuth ctxNoHeader = none := h.1 rfl
  ⟨hn, (h.2.2.2.2.2.2.1 hn).1, (h.2.2.2.2.2.2.1 hn).2.1, (h.2.2.2.2.2.2.1 hn).2.2⟩

/-! ## C6 -/

/-- C6: when the transfer helper exits nonzero, both transfer handlers answer
with the 500 `ServerError` whose body is empty — so no byte of the helper's
error stream (or anything else) ever reaches the client — while the error
stream content goes to the server-side log effect only. -/
theorem transfer_helper_failure_opaque (ctx : AuthContext) (u : User)
    (repoName : String) (body : Bytes) (child : SpawnedChild)
    (hauth : checkAuth ctx = some u)
    (hw : child.writeOk = true) (hwt : child.waitOk = true)
    (hfail : child.out.exitSuccess = false) :
    handle_upload_pack ctx repoName body (some child) =
      .respond serverErrorEmpty
        [.spawn "git" ["upload-pack", "--stateless-rpc", pathStr (repoPath repoName)],
         .writeStdin body, .closeStdin, .wait,
         .logErr "git-upload-pack failed" child.out.stderr]
    ∧ handle_receive_pack ctx repoName body (some child) =
      .respond serverErrorEmpty
        [.spawn "git" ["receive-pack", "--stateless-rpc", pathStr (repoPath repoName)],
         .writeStdin body, .closeStdin, .wait,
         .logErr "git-receive-pack failed" child.out.stderr]
    ∧ serverErrorEmpty.status = 500
    ∧ serverErrorEmpty.body = [] := by
  refine ⟨?_, ?_, by decide, by decide⟩
  · simp [handle_upload_pack, hauth, hw, hwt, hfail]
  · simp [handle_receive_pack, hauth, hw, hwt, hfail]

theorem transfer_helper_failure_opaque_witness :
    handle_upload_pack ctxOk "r" [5] (some ⟨true, true, ⟨false, [8], [6, 6]⟩⟩) =
      .respond serverErrorEmpty
        [.spawn "git" ["upload-pack", "--stateless-rpc", pathStr (repoPath "r")],
         .writeStdin [5], .closeStdin, .wait, .logErr "git-upload-pack failed" [6, 6]]
    ∧ serverErrorEmpty.body = [] :=
  have h := transfer_helper_failure_opaque ctxOk userOk "r" [5]
    ⟨true, true, ⟨false, [8], [6, 6]⟩⟩ (by decide) rfl rfl rfl
  ⟨h.1, h.2.2.2⟩

/-! ## C7 -/

/-- C7 (claim correct, code wrong): the claim requires a helper *spawn* failure
to be converted into a per-request `ServerError` response.  The code instead
calls `.expect(..)` on the spawn `Result` (main.rs lines 290–291 and 355–356),
so a spawn failure panics inside the handler and no HTTP response is
constructed at all — the `Outcome.panic` constructor, never `.respond`. -/
theorem spawn_failure_panics :
    handle_upload_pack ctxOk "r" [1] none =
      .panic "Failed to spawn git-upload-pack"
        [.spawn "git" ["upload-pack", "--stateless-rpc", "repositories/r.git"]]
    ∧ handle_receive_pack ctxOk "r" [1] none =
      .panic "Failed to spawn git-receive-pack"
        [.spawn "git" ["receive-pack", "--stateless-rpc", "repositories/r.git"]]
    ∧ (∀ r effs, handle_upload_pack ctxOk "r" [1] none ≠ .respond r effs)
    ∧ (∀ r effs, handle_receive_pack ctxOk "r" [1] none ≠ .respond r effs) := by
  refine ⟨by decide, by decide, ?_, ?_⟩
  · intro r effs h
    rw [show handle_upload_pack ctxOk "r" [1] none =
        .panic "Failed to spawn git-upload-pack"
          [.spawn "git" ["upload-pack", "--stateless-rpc", "repositories/r.git"]]
      from by decide] at h
    exact Outcome.noConfusion h
  · intro r effs h
    rw [show handle_receive_pack ctxOk "r" [1] none =
        .panic "Failed to spawn git-receive-pack"
          [.spawn "git" ["receive-pack", "--stateless-rpc", "repositories/r.git"]]
      from by decide] at h
    exact Outcome.noConfusion h

/-! ## C8 -/

/-- A filesystem in which the unnormalized traversal path
`repositories/r.git/objects/pack/..` is readable (on a real system this path
resolves to the repository's `objects` directory). -/
def fsC8 : RPath → Option Bytes := fun p =>
  if p = ⟨false, ["repositories", "r.git", "objects", "pack", ".."]⟩ then some [42] else none

/-- C8 (claim correct, code wrong): the claim requires any path-traversal
sequence in the client-supplied pack filename to be rejected or normalized
before it is joined onto the repository path.  `handle_pack_file` performs no
check or normalization whatever: the segment `".."` survives the join verbatim,
the handler issues the filesystem read at the traversal path and serves
whatever comes back with 200.  The OS-side resolution of that path is the
repository's `objects` directory — the parent of the `objects/pack` directory
the endpoint is meant to serve from.  (A full escape from the repository
directory is prevented only by the routing layer, which confines the segment
to a single path component, never by this code.) -/
theorem packFile_join_unsanitized :
    packFilePath "r" ".." = ⟨false, ["repositories", "r.git", "objects", "pack", ".."]⟩
    ∧ (packFilePath "r" "..").segs.contains ".." = true
    ∧ handle_pack_file fsC8 "r" ".." =
        { status := 200, contentType := some "application/x-git-pack",
          headers := [], body := [42] }
    ∧ normSegs (packFilePath "r" "..").segs = ["repositories", "r.git", "objects"]
    ∧ normSegs (packFilePath "r" "..").segs ≠
        normSegs ((repoPath "r").join "objects/pack").segs := by
  refine ⟨by decide, by decide, by decide, by decide, by decide⟩

/-! ## C9 -/

/-- A service value long enough that the framed header exceeds the 4-hex-digit
range: 65521 characters, making the header `"# service=" ++ ... ++ "\n"`
65532 bytes and the encoded length 65536 = 0x10000. -/
def bigService : String := String.mk (List.replicate 65521 'a')

/-- Generic evaluation of the `info/refs` success path for a service value
other than `git-upload-pack` (which the code sends to the receive-pack
helper). -/
theorem infoRefs_receivePack_eval (ctx : AuthContext) (u : User) (repoName q s : String)
    (outBytes errBytes : Bytes) (hauth : checkAuth ctx = some u)
    (hq : stripPat? q "service=" = some s) (hne : s ≠ "git-upload-pack") :
    handle_info_refs ctx repoName q (some ⟨true, outBytes, errBytes⟩) =
      .respond { status := 200,
                 contentType := some ("application/x-" ++ s ++ "-advertisement"),
                 headers := [],
                 body := infoRefsBody s outBytes }
        [.spawn "git" ["receive-pack", "--advertise-refs", pathStr (repoPath repoName)],
         .wait] := by
  simp [handle_info_refs, hauth, hq, hne]

/-- C9 counterexample: the claim says the encoding step *asserts* on payloads
whose length prefix would exceed 4 hex digits, and that the service-header
pkt-line always carries a prefix of exactly 4 lowercase hex digits.  The code
contains no assertion: `format!("{:04x}", ..)` on 65536 silently produces the
5-digit prefix `"10000"`, and the handler returns a normal 200 response whose
framing is malformed — no panic, no 4-digit prefix. -/
theorem infoRefs_oversized_header_cex :
    rustLen ("# service=" ++ bigService ++ "\n") + 4 = 65536
    ∧ format04x 65536 = "10000"
    ∧ "10000".data.length = 5
    ∧ handle_info_refs ctxOk "r" ("service=" ++ bigService) (some ⟨true, [], []⟩) =
        .respond { status := 200,
                   contentType := some ("application/x-" ++ bigService ++ "-advertisement"),
                   headers := [],
                   body := infoRefsBody bigService [] }
          [.spawn "git" ["receive-pack", "--advertise-refs", "repositories/r.git"], .wait]
    ∧ infoRefsBody bigService [] =
        strBytes "10000" ++ strBytes ("# service=" ++ bigService ++ "\n") ++ strBytes "0000" := by
  have hlen : rustLen ("# service=" ++ bigService ++ "\n") = 65532 := by
    rw [rustLen_append, rustLen_append]
    have h1 : rustLen "# service=" = 10 := by decide
    have h2 : rustLen "\n" = 1 := by decide
    have h3 : rustLen bigService = 65521 := rustLen_mk_replicate_a 65521
    omega
  have hfmt : format04x 65536 = "10000" := by decide
  have hauth : checkAuth ctxOk = some userOk := by decide
  have hpath : pathStr (repoPath "r") = "repositories/r.git" := by decide
  have hsvc : stripPat? ("service=" ++ bigService) "service=" = some bigService :=
    stripPat?_append "service=" bigService
  have hne : bigService ≠ "git-upload-pack" := by
    intro h
    have h2 : bigService.data.length = "git-upload-pack".data.length := by rw [h]
    have hd : bigService.data = List.replicate 65521 'a' := rfl
    rw [hd, List.length_replicate] at h2
    have h3 : "git-upload-pack".data.length = 15 := by decide
    omega
  refine ⟨by omega, hfmt, by decide, ?_, ?_⟩
  · rw [infoRefs_receivePack_eval ctxOk userOk "r" ("service=" ++ bigService) bigService
      [] [] hauth hsvc hne, hpath]
  · have hbody : infoRefsBody bigService [] =
        strBytes (format04x (rustLen ("# service=" ++ bigService ++ "\n") + 4))
          ++ strBytes ("# service=" ++ bigService ++ "\n") ++ strBytes "0000" ++ [] := rfl
    have hadd : (65532 : Nat) + 4 = 65536 := rfl
    rw [hbody, hlen, hadd, hfmt, List.append_nil]

/-- C9 amended: the encoding step never asserts.  The prefix is the lowercase
hex of payload length + 4, zero-padded on the left to a minimum of 4 digits and
never truncated: for values up to 0xFFFF it is exactly 4 lowercase hex digits
whose value is the payload length + 4, and for larger values (any value a
`usize` can hold) it is 5 or more digits, still decoding to the exact value.
The info/refs body is built from exactly this prefix. -/
theorem pktline_prefix_spec (n : Nat) :
    (n ≤ 65535 → (format04x n).data.length = 4 ∧ hexVal (format04x n).data = n
      ∧ ∀ c ∈ (format04x n).data, c ∈ hexDigits)
    ∧ (65536 ≤ n → n < 16 ^ 16 →
        5 ≤ (format04x n).data.length ∧ hexVal (format04x n).data = n)
    ∧ (∀ service helperStdout, infoRefsBody service helperStdout =
        strBytes (format04x (rustLen ("# service=" ++ service ++ "\n") + 4))
          ++ strBytes ("# service=" ++ service ++ "\n") ++ strBytes "0000" ++ helperStdout) := by
  refine ⟨?_, ?_, fun service helperStdout => rfl⟩
  · intro h
    exact ⟨length_format04x_of_le n h,
      hexVal_format04x n (by calc n ≤ 65535 := h
        _ < 16 ^ 17 := by norm_num),
      mem_format04x n⟩
  · intro h h'
    exact ⟨length_format04x_of_ge n h (by calc n < 16 ^ 16 := h'
        _ < 16 ^ 17 := by norm_num),
      hexVal_format04x n (by calc n < 16 ^ 16 := h'
        _ < 16 ^ 17 := by norm_num)⟩

theorem pktline_prefix_spec_witness :
    (format04x 30).data.length = 4 ∧ hexVal (format04x 30).data = 30
    ∧ ∀ c ∈ (format04x 30).data, c ∈ hexDigits :=
  (pktline_prefix_spec 30).1 (by norm_num)

/-! ## C10 -/

/-- C10: after authentication succeeds, `handle_receive_pack` behaves
identically for any two authenticated identities — it binds the username and
never consults it, the repository's owner, or any visibility flag — and it
proceeds straight to spawning the push helper (the first effect of every
post-authentication branch is the `git receive-pack --stateless-rpc` spawn). -/
theorem receivePack_identity_oblivious (ctx₁ ctx₂ : AuthContext) (u₁ u₂ : User)
    (repoName : String) (body : Bytes) (spawnRes : Option SpawnedChild)
    (h₁ : checkAuth ctx₁ = some u₁) (h₂ : checkAuth ctx₂ = some u₂) :
    handle_receive_pack ctx₁ repoName body spawnRes =
      handle_receive_pack ctx₂ repoName body spawnRes
    ∧ (outcomeEffects (handle_receive_pack ctx₁ repoName body spawnRes)).head? =
        some (.spawn "git" ["receive-pack", "--stateless-rpc", pathStr (repoPath repoName)]) := by
  constructor
  · simp [handle_receive_pack, h₁, h₂]
  · cases spawnRes with
    | none => simp [handle_receive_pack, h₁, outcomeEffects]
    | some child =>
      cases hw : child.writeOk <;> cases hwt : child.waitOk <;>
        cases hex : child.out.exitSuccess <;>
          simp [handle_receive_pack, h₁, hw, hwt, hex, outcomeEffects]

theorem receivePack_identity_oblivious_witness :
    handle_receive_pack ctxOk "r" [1, 2] (some ⟨true, true, ⟨true, [3], []⟩⟩) =
      handle_receive_pack ctxBob "r" [1, 2] (some ⟨true, true, ⟨true, [3], []⟩⟩) :=
  (receivePack_identity_oblivious ctxOk ctxBob userOk ⟨"bob"⟩ "r" [1, 2]
    (some ⟨true, true, ⟨true, [3], []⟩⟩) (by decide) (by decide)).1

end GitGateway


